import Mathlib

/-!
Verification development for the SyncSys repository (file-drop database
synchronisation system).  The definitions below are a shallow embedding of
the Python sources `syncsys_core.py` and `syncsys_client.py`:

* the `DatabaseManager` execution engine (SELECT / INSERT / UPDATE / DELETE /
  SQL / TRANSACTION), with the SQLite collaborator modelled as a small
  schemaless relational store with UNIQUE-column constraints;
* the `FileMonitor` / `_WatchdogFileHandler` folder watcher, including the
  file-completion wait loop `_wait_for_file_complete`;
* the `SyncProcessor._handle_request` request/response protocol step;
* the `SyncClient` retry loop `_execute_with_retry` and response-file
  handler `_handle_response_file`.

Concurrency is modelled by linearisation: the watcher's lock makes the
check-and-insert on the processed-file set atomic, so every concurrent
execution corresponds to some sequence of detection events, over which the
theorems quantify.  File-system writes are modelled as always succeeding
(disk-level I/O failure is outside the embedding).
-/

namespace SyncSys

/-- JSON scalar values stored in database cells and request payloads. -/
inductive Val where
  | str : String → Val
  | int : Int → Val
  | null : Val
deriving DecidableEq

/-- A database row / JSON object: an association list from column name to value
(the model is schemaless; SQLite column-existence checks are not modelled, no
claim depends on them). -/
abbrev Row := List (String × Val)

/-- First-match association lookup (models Python dict / sqlite3.Row access). -/
def lookupA {β : Type} : List (String × β) → String → Option β
  | [], _ => none
  | p :: r, k => if p.1 = k then some p.2 else lookupA r k

/-- Replace the first binding of a key, or append it (models dict assignment). -/
def assocSet {β : Type} : List (String × β) → String → β → List (String × β)
  | [], k, v => [(k, v)]
  | p :: r, k, v => if p.1 = k then (k, v) :: r else p :: assocSet r k v

/-- Value of a column in a row. -/
def rowGet (r : Row) (k : String) : Option Val := lookupA r k

/-- Non-null value of a column in a row (SQL UNIQUE ignores NULLs). -/
def rowVal (r : Row) (c : String) : Option Val :=
  match rowGet r c with
  | some Val.null => none
  | some v => some v
  | none => none

/-- One table: the AUTOINCREMENT counter and the rows keyed by rowid. -/
structure Table where
  nextId : Nat
  rows : List (Nat × Row)
deriving DecidableEq

/-- The database: tables keyed by name (names are unique in SQLite; the model
uses first-match lookup accordingly). -/
structure DBState where
  tables : List (String × Table)
deriving DecidableEq

def findTable (st : DBState) (t : String) : Option Table := lookupA st.tables t

def setTable (st : DBState) (t : String) (tbl : Table) : DBState :=
  ⟨assocSet st.tables t tbl⟩

/-- UNIQUE-column constraints of the database schema: pairs of
(table name, column name).  This models the schema the SQLite engine
enforces (e.g. the uniqueness constraint of the atomicity test scenario). -/
abbrev UniqueCons := List (String × String)

/-- Does a row satisfy a parameter-bound WHERE map (built by the Python code as
`k = ?` conjuncts)?  A NULL bound parameter never compares equal, as in SQL. -/
def matchesWhere (conds : List (String × Val)) (r : Row) : Bool :=
  conds.all fun p =>
    match p.2 with
    | Val.null => false
    | v => decide (rowGet r p.1 = some v)

/-- Column whose UNIQUE constraint a freshly inserted row would violate, if any
(models SQLite constraint checking for the INSERT statement). -/
def insertConflicts (uc : UniqueCons) (t : String) (tbl : Table) (newRow : Row) :
    Option String :=
  uc.findSome? fun p =>
    if p.1 = t then
      match rowVal newRow p.2 with
      | some v =>
          if tbl.rows.any (fun q => decide (rowVal q.2 p.2 = some v)) then some p.2
          else none
      | none => none
    else none

/-- SQLite execution of the INSERT statement built by
`DatabaseManager._execute_insert`.  An empty values map makes the Python code
build the statement INSERT INTO t () VALUES (), which SQLite rejects with a
syntax error at prepare time (before table-name resolution). -/
def sqliteInsert (uc : UniqueCons) (st : DBState) (t : String)
    (vals : List (String × Val)) : Except String (Nat × DBState) :=
  if vals = [] then .error "near ): syntax error"
  else
    match findTable st t with
    | none => .error ("no such table: " ++ t)
    | some tbl =>
      match insertConflicts uc t tbl vals with
      | some c => .error ("UNIQUE constraint failed: " ++ t ++ "." ++ c)
      | none =>
        let id := tbl.nextId
        .ok (id, setTable st t ⟨id + 1, tbl.rows ++ [(id, vals)]⟩)

/-- Apply a SET map to a row, dict-style. -/
def applySets (sets : List (String × Val)) (r : Row) : Row :=
  sets.foldl (fun acc p => assocSet acc p.1 p.2) r

/-- Column whose UNIQUE constraint some modified row violates after an UPDATE,
if any (SQLite checks the constraint only for rows the statement touched). -/
def updateConflict (uc : UniqueCons) (t : String) (finalRows : List (Nat × Row))
    (modifiedIds : List Nat) : Option String :=
  uc.findSome? fun p =>
    if p.1 = t then
      if finalRows.any (fun q =>
          modifiedIds.contains q.1 &&
          (match rowVal q.2 p.2 with
           | some v =>
               decide (2 ≤ (finalRows.filter
                 (fun q2 => decide (rowVal q2.2 p.2 = some v))).length)
           | none => false))
      then some p.2 else none
    else none

/-- SQLite execution of the UPDATE statement built by
`DatabaseManager._execute_update`.  An empty SET or WHERE map makes the Python
code build a statement with a dangling SET / WHERE keyword: a syntax error. -/
def sqliteUpdate (uc : UniqueCons) (st : DBState) (t : String)
    (sets conds : List (String × Val)) : Except String (Nat × DBState) :=
  if sets = [] ∨ conds = [] then .error "incomplete input"
  else
    match findTable st t with
    | none => .error ("no such table: " ++ t)
    | some tbl =>
      let modifiedIds := (tbl.rows.filter fun p => matchesWhere conds p.2).map Prod.fst
      let finalRows := tbl.rows.map fun p =>
        if matchesWhere conds p.2 then (p.1, applySets sets p.2) else p
      match updateConflict uc t finalRows modifiedIds with
      | some c => .error ("UNIQUE constraint failed: " ++ t ++ "." ++ c)
      | none => .ok (modifiedIds.length, setTable st t ⟨tbl.nextId, finalRows⟩)

/-- SQLite execution of the DELETE statement built by
`DatabaseManager._execute_delete`.  An empty WHERE map again yields a
dangling-WHERE syntax error. -/
def sqliteDelete (st : DBState) (t : String) (conds : List (String × Val)) :
    Except String (Nat × DBState) :=
  if conds = [] then .error "incomplete input"
  else
    match findTable st t with
    | none => .error ("no such table: " ++ t)
    | some tbl =>
      let keep := tbl.rows.filter fun p => !(matchesWhere conds p.2)
      .ok (tbl.rows.length - keep.length, setTable st t ⟨tbl.nextId, keep⟩)

/-- Operation-specific payload of a request (the string-keyed `data` dict of
the Python code, typed; `whereC` embeds the `where` key, a Lean keyword). -/
structure OpData where
  values : Option (List (String × Val)) := none
  whereC : Option (List (String × Val)) := none
  columns : Option (List String) := none
  orderBy : Option String := none
  limit : Option Int := none
  sql : Option String := none
  params : Option (List Val) := none
deriving DecidableEq

/-- One element of a TRANSACTION request's operations list: either not a JSON
object at all, or an object with optional type / table / data keys (the code
validates their presence at run time). -/
inductive TxItem where
  | notDict
  | item (opType : Option String) (opTable : Option String) (opData : Option OpData)
deriving DecidableEq

/-- Full request payload: the per-operation fields plus the TRANSACTION
operations list. -/
structure ReqData extends OpData where
  operations : Option (List TxItem) := none

/-- The SyncRequest dataclass. -/
structure SyncRequest where
  requestId : String
  clientId : String
  operation : String
  table : String
  data : ReqData
  timestamp : Int

/-- Result payload of one executed operation, mirroring what each
`_execute_*` method returns (`txRes` carries operations_count,
total_affected_rows and the ordered per-step info list; the constant
transaction_success=true field is implicit in the constructor). -/
inductive OpResult where
  | rows : List Row → OpResult
  | insertRes : Nat → Nat → OpResult
  | affected : Nat → OpResult
  | sqlRes : Int → Nat → OpResult
  | txRes : Nat → Int → List (Nat × String × String × OpResult) → OpResult

/-- Column projection of `_execute_select`: an absent or empty columns list
means SELECT * (the Python truthiness test). -/
def projectRow (cols : Option (List String)) (r : Row) : Row :=
  match cols with
  | some (c :: cs) => (c :: cs).filterMap fun k => (rowGet r k).map fun v => (k, v)
  | _ => r

/-- LIMIT clause semantics: a negative SQLite LIMIT means no limit. -/
def applyLimit (lim : Option Int) (rs : List Row) : List Row :=
  match lim with
  | none => rs
  | some n => if n < 0 then rs else rs.take n.toNat

/-- `DatabaseManager._execute_select`.  A present-but-empty where dict makes
the code emit a dangling WHERE: syntax error.  The ORDER BY clause only
permutes the result; the model returns rows in table order (no claim depends
on result ordering). -/
def executeSelect (st : DBState) (t : String) (d : OpData) :
    Except String OpResult :=
  match findTable st t with
  | none => .error ("no such table: " ++ t)
  | some tbl =>
    if d.whereC = some [] then .error "incomplete input"
    else
      let matched : List (Nat × Row) :=
        match d.whereC with
        | some conds => tbl.rows.filter fun p => matchesWhere conds p.2
        | none => tbl.rows
      .ok (.rows (applyLimit d.limit (matched.map fun p => projectRow d.columns p.2)))

/-- `DatabaseManager._execute_insert`: requires the values key, then executes
the built INSERT; cursor.rowcount is 1 for a single-row INSERT and
cursor.lastrowid is the fresh rowid. -/
def executeInsert (uc : UniqueCons) (st : DBState) (t : String) (d : OpData) :
    Except String (OpResult × DBState) :=
  match d.values with
  | none => .error "INSERT操作缺少values字段"
  | some vals =>
    match sqliteInsert uc st t vals with
    | .error e => .error e
    | .ok (id, st2) => .ok (.insertRes id 1, st2)

/-- `DatabaseManager._execute_update`: requires both values and where keys. -/
def executeUpdate (uc : UniqueCons) (st : DBState) (t : String) (d : OpData) :
    Except String (OpResult × DBState) :=
  match d.values, d.whereC with
  | some vals, some conds =>
    (match sqliteUpdate uc st t vals conds with
     | .error e => .error e
     | .ok (n, st2) => .ok (.affected n, st2))
  | _, _ => .error "UPDATE操作缺少values或where字段"

/-- `DatabaseManager._execute_delete`: requires the where key. -/
def executeDelete (st : DBState) (t : String) (d : OpData) :
    Except String (OpResult × DBState) :=
  match d.whereC with
  | none => .error "DELETE操作缺少where字段"
  | some conds =>
    match sqliteDelete st t conds with
    | .error e => .error e
    | .ok (n, st2) => .ok (.affected n, st2)

/-- Observable output of executing one raw SQL statement: the fetched rows,
cursor.rowcount and cursor.lastrowid. -/
structure SqlExecOut where
  resRows : List Row
  rowcount : Int
  lastrowid : Nat

/-- The raw-SQL collaborator: full SQLite SQL is outside the embedding, so the
engine that `cursor.execute(sql, params)` invokes is an abstract parameter
over which the theorems quantify. -/
abbrev SqlEngine := String → List Val → DBState → Except String (SqlExecOut × DBState)

/-- Python-style whitespace for str.strip(). -/
def isPySpace (c : Char) : Bool :=
  c = ' ' || c = '\t' || c = '\n' || c = '\r' || c = '\x0b' || c = '\x0c'

/-- Does the first list start with the second? -/
def listStartsWith : List Char → List Char → Bool
  | _, [] => true
  | [], _ :: _ => false
  | a :: as, b :: bs => a = b && listStartsWith as bs

/-- Python str.strip(): drop leading and trailing whitespace. -/
def pyStrip (s : String) : String :=
  ⟨((s.toList.dropWhile isPySpace).reverse.dropWhile isPySpace).reverse⟩

/-- The classification test of `_execute_sql`:
sql.strip().upper().startswith(SELECT). -/
def isSelectSql (s : String) : Bool :=
  listStartsWith ((pyStrip s).toList.map Char.toUpper) ("SELECT".toList)

/-- `DatabaseManager._execute_sql`: requires the sql key, runs the statement
with the positional params (defaulting to the empty list), and shapes the
result by the SELECT-prefix test. -/
def executeSql (eng : SqlEngine) (d : OpData) (st : DBState) :
    Except String (OpResult × DBState) :=
  match d.sql with
  | none => .error "SQL操作缺少sql字段"
  | some sql =>
    match eng sql (d.params.getD []) st with
    | .error e => .error e
    | .ok (out, st2) =>
      if isSelectSql sql then .ok (.rows out.resRows, st2)
      else .ok (.sqlRes out.rowcount out.lastrowid, st2)

/-- Contribution of one sub-operation result to total_affected_rows: only
dict results carrying a rows_affected key count (SELECT row lists do not). -/
def rowsAffectedOf : OpResult → Int
  | .rows _ => 0
  | .insertRes _ n => (n : Int)
  | .affected n => (n : Int)
  | .sqlRes n _ => n
  | .txRes _ _ _ => 0

/-- Dispatch of one transaction sub-operation, in the source's order
UPDATE / DELETE / INSERT / SELECT. -/
def dispatchTxOp (uc : UniqueCons) (st : DBState) (t : String) (op : String)
    (d : OpData) : Except String (OpResult × DBState) :=
  if op = "UPDATE" then executeUpdate uc st t d
  else if op = "DELETE" then executeDelete st t d
  else if op = "INSERT" then executeInsert uc st t d
  else if op = "SELECT" then
    match executeSelect st t d with
    | .error e => .error e
    | .ok r => .ok (r, st)
  else .error ("事务中不支持的操作类型: " ++ op)

/-- The per-operation loop of `_execute_transaction`: validates each list
element, executes it, and accumulates the running rows_affected total and the
ordered results list.  The first failure aborts the loop with the underlying
message (the caller rolls back, i.e. its pre-transaction state survives). -/
def runTxOps (uc : UniqueCons) :
    List TxItem → Nat → DBState → Int → List (Nat × String × String × OpResult) →
    Except String (Int × List (Nat × String × String × OpResult) × DBState)
  | [], _, st, total, acc => .ok (total, acc, st)
  | .notDict :: _, i, _, _, _ =>
      .error ("操作 " ++ toString (i + 1) ++ " 必须是字典格式")
  | .item t? tb? d? :: rest, i, st, total, acc =>
    match t?, tb?, d? with
    | some op, some tb, some d =>
      match dispatchTxOp uc st tb op d with
      | .error e => .error e
      | .ok (res, st2) =>
        runTxOps uc rest (i + 1) st2 (total + rowsAffectedOf res)
          (acc ++ [(i + 1, op, tb, res)])
    | _, _, _ =>
      .error ("操作 " ++ toString (i + 1) ++ " 缺少必要字段: type, table, data")

/-- `DatabaseManager._execute_transaction`.  The operations-key and
non-empty-list checks precede BEGIN, so their errors are unwrapped; a failure
inside the loop triggers ROLLBACK (restoring the pre-transaction state, with
any rollback-specific error swallowed) and is re-raised wrapped in the
aggregate transaction-failure message. -/
def executeTransaction (uc : UniqueCons) (req : SyncRequest) (st : DBState) :
    Except String (OpResult × DBState) :=
  match req.data.operations with
  | none => .error "TRANSACTION操作缺少operations字段"
  | some ops =>
    if ops = [] then .error "operations必须是非空列表"
    else
      match runTxOps uc ops 0 st 0 [] with
      | .error e => .error ("事务执行失败: " ++ e)
      | .ok (total, results, st2) => .ok (.txRes ops.length total results, st2)

/-- `DatabaseManager._execute_operation`: dispatch on the operation string. -/
def executeOperation (uc : UniqueCons) (eng : SqlEngine) (req : SyncRequest)
    (st : DBState) : Except String (OpResult × DBState) :=
  if req.operation = "SELECT" then
    match executeSelect st req.table req.data.toOpData with
    | .error e => .error e
    | .ok r => .ok (r, st)
  else if req.operation = "INSERT" then executeInsert uc st req.table req.data.toOpData
  else if req.operation = "UPDATE" then executeUpdate uc st req.table req.data.toOpData
  else if req.operation = "DELETE" then executeDelete st req.table req.data.toOpData
  else if req.operation = "SQL" then executeSql eng req.data.toOpData st
  else if req.operation = "TRANSACTION" then executeTransaction uc req st
  else .error ("不支持的操作类型: " ++ req.operation)

/-- One row of the sync_log audit table (written with INSERT OR REPLACE keyed
by request_id; the log is modelled as the emitted entry). -/
structure SyncLogEntry where
  requestId : String
  clientId : String
  operation : String
  tableName : String
  timestamp : Int
  status : String
  errorMessage : Option String

/-- The structured result dict of `execute_request`: either
status=SUCCESS with data and timestamp, or status=ERROR with a message and
timestamp. -/
inductive ExecResult where
  | success (data : OpResult) (timestamp : Int)
  | error (msg : String) (timestamp : Int)

/-- Full outcome of `execute_request`: the returned result dict, the database
state after the call, and the sync_log row written. -/
structure ReqOutcome where
  result : ExecResult
  db : DBState
  logEntry : SyncLogEntry

/-- `DatabaseManager.execute_request`: runs the operation under the manager
lock; the try/except boundary is embedded as the Except case split, so any
failure inside the operation becomes a structured ERROR result and (because
the raised exception aborts the connection context, and a TRANSACTION has
already rolled back) leaves the database state unchanged. -/
def executeRequest (uc : UniqueCons) (eng : SqlEngine) (req : SyncRequest)
    (st : DBState) (now : Int) : ReqOutcome :=
  match executeOperation uc eng req st with
  | .ok (res, st2) =>
    ⟨.success res now, st2,
      ⟨req.requestId, req.clientId, req.operation, req.table, req.timestamp,
        "SUCCESS", none⟩⟩
  | .error e =>
    ⟨.error e now, st,
      ⟨req.requestId, req.clientId, req.operation, req.table, req.timestamp,
        "ERROR", some e⟩⟩

/-! ## Folder watcher (`_WatchdogFileHandler` / `FileMonitor`) -/

/-- What one poll of the file observes inside `_wait_for_file_complete`: its
current size and whether its current content parses as JSON. -/
structure FileSnap where
  size : Nat
  parses : Bool
deriving DecidableEq

/-- The loop body of `_wait_for_file_complete` over the sequence of snapshots
the successive polls would observe (a none entry is a poll at which the file
does not exist or stat raises); last is the last_size variable, initially -1.
The list length embeds the max_wait bound (2s at 100ms intervals in the
source); an exhausted list is the timed-out return False. -/
def waitLoop : List (Option FileSnap) → Int → Bool
  | [], _ => false
  | none :: rest, last => waitLoop rest last
  | some s :: rest, last =>
    if (s.size : Int) = last ∧ 0 < s.size then
      if s.parses then true else waitLoop rest last
    else waitLoop rest (s.size : Int)

/-- `_wait_for_file_complete`: start with last_size = -1. -/
def waitForFileComplete (obs : List (Option FileSnap)) : Bool :=
  waitLoop obs (-1)

/-- One detection of a file by the watcher.  scan is the startup enumeration
(`_process_existing_files`), poll a polling-fallback pass
(`_check_new_files`), osEvent a watchdog create/modify event
(`_handle_file_event`).  scan and poll carry the snapshot of the file's
current content at dispatch time purely as an observation — the code on
those paths never examines it; the event path carries the snapshots its
completion wait would read. -/
inductive Detection where
  | scan (name : String) (snap : FileSnap)
  | poll (name : String) (snap : FileSnap)
  | osEvent (name : String) (obs : List (Option FileSnap))

/-- Processing of one detection against the processed-file set (the lock
makes the membership test and insertion atomic; concurrency is modelled by
quantifying over all linearised sequences of detections).  Returns the new
set and the dispatched filename, if any.  On the scan and poll paths the
callback is submitted unconditionally; on the event path only after
`_wait_for_file_complete` succeeds — but the filename is recorded in the set
before the wait on every path. -/
def stepDetect (ps : List String) : Detection → List String × Option String
  | .scan n _ => if n ∈ ps then (ps, none) else (n :: ps, some n)
  | .poll n _ => if n ∈ ps then (ps, none) else (n :: ps, some n)
  | .osEvent n obs =>
    if n ∈ ps then (ps, none)
    else (n :: ps, if waitForFileComplete obs then some n else none)

/-- Run a sequence of detections from a given processed set, collecting the
dispatched filenames in order. -/
def runDetections : List Detection → List String → List String
  | [], _ => []
  | d :: ds, ps =>
    match (stepDetect ps d).2 with
    | some n => n :: runDetections ds (stepDetect ps d).1
    | none => runDetections ds (stepDetect ps d).1

/-- Completion evidence: two polls (not necessarily adjacent) observed the
file with the same non-zero size and the later one parsed as JSON.  This is
what a successful `_wait_for_file_complete` guarantees about the snapshot
sequence. -/
def StablyParsed (obs : List (Option FileSnap)) : Prop :=
  ∃ i j s1 s2, i < j ∧ obs.get? i = some (some s1) ∧ obs.get? j = some (some s2) ∧
    s1.size = s2.size ∧ 0 < s2.size ∧ s2.parses = true

/-! ## Processor (`SyncProcessor._handle_request`) -/

/-- The response-file body written by the processor. -/
structure ResponseBody where
  requestId : String
  clientId : String
  result : ExecResult
  processedAt : Int

/-- Filesystem effects of one `_handle_request` call, in program order. -/
inductive FsAction where
  | writeResponse (name : String) (body : ResponseBody)
  | deleteRequest

def isWrite : FsAction → Bool
  | .writeResponse _ _ => true
  | .deleteRequest => false

/-- A request-file body that parsed as a JSON object, with each expected key
optional (a missing key raises KeyError when the SyncRequest is built). -/
structure ReqFileBody where
  requestId : Option String := none
  clientId : Option String := none
  operation : Option String := none
  table : Option String := none
  data : Option ReqData := none
  timestamp : Option Int := none

/-- Outcome of json.load on a request file.  unreadable models
request_data = None (json.load raised, or the body was the JSON literal
null); nonObject models a body that parses as JSON but is not an object —
a list, string, number or boolean — on which every key access raises;
object carries the parsed dict. -/
inductive ReqFileParse where
  | unreadable
  | nonObject
  | object (b : ReqFileBody)

/-- Response filename: client_id then underscore then request_id. -/
def responseName (cid rid : String) : String := cid ++ "_" ++ rid ++ ".json"

/-- Best-effort identifiers of the error path of `_handle_request`: if
request_data is None the filename stem is the request id and the client is
unknown; for a dict, dict.get with the unknown default.  On a non-object
body the error handler never reaches an identifier — request_data.get
itself raises AttributeError — so that case is unreachable here (the
handler's result for it is listed only to keep the function total).
Returns (client_id, request_id). -/
def bestEffortIds : ReqFileParse → String → String × String
  | .unreadable, stem => ("unknown", stem)
  | .nonObject, stem => ("unknown", stem)
  | .object b, _ => (b.clientId.getD "unknown", b.requestId.getD "unknown")

/-- The error-response branch of `_handle_request`: write the ERROR response
under the best-effort name, then delete the request file. -/
def errorActions (parsed : ReqFileParse) (stem : String) (e : String)
    (now : Int) : List FsAction :=
  [ .writeResponse (responseName (bestEffortIds parsed stem).1 (bestEffortIds parsed stem).2)
      ⟨(bestEffortIds parsed stem).2, (bestEffortIds parsed stem).1, .error e now, now⟩,
    .deleteRequest ]

/-- `SyncProcessor._handle_request` for one request file.  parsed is the
json.load outcome, stem the filename without extension.  On a non-object
body the happy path raises TypeError at the first key access and the error
handler then raises AttributeError at request_data.get, landing in the
inner except clause: the request file is deleted but NO response is
written.  emailCheckRaises models the only other step of the happy path
that can raise — should_send_email on the injected notifier — whose exception
also lands in the outer handler (process_batch_import_request failures are
swallowed locally and cannot).  Returns the filesystem actions and the
resulting database state. -/
def handleRequest (uc : UniqueCons) (eng : SqlEngine) (parsed : ReqFileParse)
    (stem : String) (st : DBState) (now : Int) (emailCheckRaises : Bool) :
    List FsAction × DBState :=
  match parsed with
  | .unreadable => (errorActions .unreadable stem "json parse error" now, st)
  | .nonObject => ([FsAction.deleteRequest], st)
  | .object b =>
    match b.requestId, b.clientId, b.operation, b.table, b.data, b.timestamp with
    | some rid, some cid, some op, some tb, some d, some ts =>
      let out := executeRequest uc eng ⟨rid, cid, op, tb, d, ts⟩ st now
      match out.result, emailCheckRaises with
      | .success _ _, true =>
        (errorActions (.object b) stem "email check error" now, out.db)
      | _, _ =>
        ([ .writeResponse (responseName cid rid) ⟨rid, cid, out.result, now⟩,
           .deleteRequest ], out.db)
    | _, _, _, _, _, _ =>
      (errorActions (.object b) stem "KeyError" now, st)

/-! ## Client (`SyncClient`) -/

/-- The client-side QueryResult, restricted to the fields the retry loop
inspects (success flag and error message; data / request_id / timestamp are
carried through unchanged by `_execute_with_retry`). -/
structure QueryResultM where
  success : Bool
  error : Option String
deriving DecidableEq

/-- Outcome of one attempt of the retry loop: either `_wait_for_response`
returned a QueryResult, or sending/waiting raised. -/
inductive AttemptOutcome where
  | ok (r : QueryResultM)
  | raised (msg : String)

/-- Python str() of the last_error variable (None prints as None). -/
def optErrStr : Option String → String
  | none => "None"
  | some s => s

/-- The final all-attempts-failed message of `_execute_with_retry`. -/
def failMsg (ra : Nat) (lastError : Option String) : String :=
  "重试 " ++ toString ra ++ " 次后失败: " ++ optErrStr lastError

/-- Did this attempt fail (an unsuccessful result or an exception)? -/
def attemptFailed : AttemptOutcome → Bool
  | .ok q => !q.success
  | .raised _ => true

/-- Error carried out of a failed attempt. -/
def lastErrOf : AttemptOutcome → Option String
  | .ok q => q.error
  | .raised m => some m

/-- The attempt loop of `_execute_with_retry`: remaining iterations, current
attempt index, last_error, and the count of retry_delay sleeps performed so
far (the code sleeps only when attempt < retry_attempts - 1).  Returns the
QueryResult, the number of attempts made, and the sleep count. -/
def retryGo (ra : Nat) (outcomes : Nat → AttemptOutcome) :
    Nat → Nat → Option String → Nat → QueryResultM × Nat × Nat
  | 0, _, lastError, sleeps => (⟨false, some (failMsg ra lastError)⟩, ra, sleeps)
  | r + 1, i, _, sleeps =>
    match outcomes i with
    | .ok q =>
      if q.success then (q, i + 1, sleeps)
      else retryGo ra outcomes r (i + 1) q.error
        (if i < ra - 1 then sleeps + 1 else sleeps)
    | .raised m =>
      retryGo ra outcomes r (i + 1) (some m)
        (if i < ra - 1 then sleeps + 1 else sleeps)

/-- `SyncClient._execute_with_retry`: range(retry_attempts) attempts from a
fresh loop state.  outcomes i is what attempt i would produce. -/
def executeWithRetry (ra : Nat) (outcomes : Nat → AttemptOutcome) :
    QueryResultM × Nat × Nat :=
  retryGo ra outcomes ra 0 none 0

/-! ## Concrete scenarios used by witnesses and counterexamples -/

/-- Is an Except value a success? -/
def isOkE {ε α : Type} : Except ε α → Bool
  | .ok _ => true
  | .error _ => false

/-- A raw-SQL collaborator with no statements modelled; instantiates the
abstract engine where a concrete one is needed. -/
def stubEngine : SqlEngine := fun _ _ _ => .error "raw SQL not modelled"

/-- Schema of the atomicity scenario: users.email is UNIQUE. -/
def uc1 : UniqueCons := [("users", "email")]

/-- Initial state of the atomicity scenario: an empty users table. -/
def st1 : DBState := ⟨[("users", ⟨1, []⟩)]⟩

/-- An INSERT sub-operation of a TRANSACTION, inserting one email value. -/
def insOp (v : String) : TxItem :=
  .item (some "INSERT") (some "users") (some { values := some [("email", Val.str v)] })

/-- Three INSERTs whose third repeats the first email, violating the UNIQUE
constraint (the spec's atomicity test scenario). -/
def ops1 : List TxItem := [insOp "e1", insOp "e2", insOp "e1"]

/-- The TRANSACTION request of the atomicity scenario. -/
def req1 : SyncRequest :=
  ⟨"r1", "c1", "TRANSACTION", "", { operations := some ops1 }, 0⟩

/-- Snapshot sequence of a file that stabilises and parses: sizes 5, 9, 9
with the last read parsing as JSON. -/
def goodObs : List (Option FileSnap) := [some ⟨5, false⟩, some ⟨9, false⟩, some ⟨9, true⟩]

/-- Snapshot sequence of a file that never parses within the wait bound. -/
def badObs : List (Option FileSnap) := [some ⟨3, false⟩, some ⟨3, false⟩]

/-- State of the zero-row update/delete scenario: one user row. -/
def st7 : DBState := ⟨[("users", ⟨2, [(1, [("id", Val.str "a")])]⟩)]⟩

/-- UPDATE users SET x=1 WHERE id=nonexistent. -/
def ureq7 : SyncRequest :=
  ⟨"r7", "c7", "UPDATE", "users",
    { values := some [("x", Val.int 1)], whereC := some [("id", Val.str "nonexistent")] }, 0⟩

/-- DELETE FROM users WHERE id=nonexistent. -/
def dreq7 : SyncRequest :=
  ⟨"r7d", "c7", "DELETE", "users", { whereC := some [("id", Val.str "nonexistent")] }, 0⟩

/-- Attempt outcomes in which every attempt times out. -/
def timeoutOutcomes : Nat → AttemptOutcome := fun _ => .ok ⟨false, some "请求超时"⟩

/-- A raw-SQL collaborator returning one fixed row, rowcount 2, lastrowid 5. -/
def rowEngine : SqlEngine := fun _ _ st => .ok (⟨[[("n", Val.int 1)]], 2, 5⟩, st)

/-- Empty database for the raw-SQL scenario. -/
def st8 : DBState := ⟨[]⟩

/-- Raw-SQL payload of a whitespace-padded lower-case select. -/
def d8a : OpData := { sql := some "  select * from users " }

/-- Raw-SQL payload of a DELETE with one positional parameter. -/
def d8b : OpData := { sql := some "DELETE FROM users", params := some [Val.int 7] }

/-- INSERT request with no values key. -/
def req9a : SyncRequest := ⟨"r9", "c9", "INSERT", "users", {}, 1⟩

/-- INSERT request with an empty values map. -/
def req9b : SyncRequest := ⟨"r9", "c9", "INSERT", "users", { values := some [] }, 1⟩

/-- INSERT request with one email value. -/
def req9c : SyncRequest :=
  ⟨"r9", "c9", "INSERT", "users", { values := some [("email", Val.str "a")] }, 1⟩

/-! ## Helper lemmas -/

theorem lookupA_assocSet_self {β : Type} :
    ∀ (l : List (String × β)) (k : String) (v : β),
      lookupA l k = some v → assocSet l k v = l := by
  intro l
  induction l with
  | nil => intro k v h; simp [lookupA] at h
  | cons p r ih =>
    intro k v h
    by_cases hk : p.1 = k
    · simp only [lookupA, hk, if_pos] at h
      simp only [assocSet, hk, if_pos]
      obtain ⟨p1, p2⟩ := p
      simp_all
    · simp only [lookupA, hk, if_neg, ite_false] at h
      simp only [assocSet, hk, ite_false]
      rw [ih k v h]

theorem filterNone {α : Type} (p : α → Bool) :
    ∀ (l : List α), (∀ a ∈ l, p a = false) → l.filter p = [] := by
  intro l
  induction l with
  | nil => intro; rfl
  | cons a r ih =>
    intro h
    have ha := h a (List.mem_cons_self a r)
    simp [List.filter, ha, ih fun b hb => h b (List.mem_cons_of_mem a hb)]

theorem filterAll {α : Type} (p : α → Bool) :
    ∀ (l : List α), (∀ a ∈ l, p a = true) → l.filter p = l := by
  intro l
  induction l with
  | nil => intro; rfl
  | cons a r ih =>
    intro h
    simp [List.filter, h a (List.mem_cons_self a r),
      ih fun b hb => h b (List.mem_cons_of_mem a hb)]

theorem mapSelf {α : Type} (f : α → α) :
    ∀ (l : List α), (∀ a ∈ l, f a = a) → l.map f = l := by
  intro l
  induction l with
  | nil => intro; rfl
  | cons a r ih =>
    intro h
    simp [List.map, h a (List.mem_cons_self a r),
      ih fun b hb => h b (List.mem_cons_of_mem a hb)]

theorem updateConflict_nilMod (uc : UniqueCons) (t : String)
    (rows : List (Nat × Row)) : updateConflict uc t rows [] = none := by
  induction uc with
  | nil => rfl
  | cons p uc ih =>
    unfold updateConflict at ih ⊢
    rw [List.findSome?_cons]
    have hany : (rows.any fun q =>
        ([] : List Nat).contains q.1 &&
        (match rowVal q.2 p.2 with
         | some v =>
             decide (2 ≤ (rows.filter
               (fun q2 => decide (rowVal q2.2 p.2 = some v))).length)
         | none => false)) = false := by
      simp [List.any_eq_true]
    by_cases hp : p.1 = t
    · simp only [hp, if_pos, hany]
      simp only [Bool.false_eq_true, if_false]
      exact ih
    · simp only [hp, ite_false]
      exact ih

theorem setTable_self (st : DBState) (t : String) (tbl : Table)
    (h : findTable st t = some tbl) : setTable st t tbl = st := by
  unfold setTable
  unfold findTable at h
  rw [lookupA_assocSet_self st.tables t tbl h]

/-- Monotonicity of the processed-file set under one detection. -/
theorem stepDetect_memMono (ps : List String) (d : Detection) {n : String}
    (h : n ∈ ps) : n ∈ (stepDetect ps d).1 := by
  cases d with
  | scan m s => by_cases hm : m ∈ ps <;> simp [stepDetect, hm, h]
  | poll m s => by_cases hm : m ∈ ps <;> simp [stepDetect, hm, h]
  | osEvent m obs => by_cases hm : m ∈ ps <;> simp [stepDetect, hm, h]

/-- A dispatched filename was not yet processed and is processed afterwards. -/
theorem stepDetect_dispatch (ps : List String) (d : Detection) {n : String}
    (h : (stepDetect ps d).2 = some n) : n ∉ ps ∧ n ∈ (stepDetect ps d).1 := by
  cases d with
  | scan m s =>
    by_cases hm : m ∈ ps
    · simp [stepDetect, hm] at h
    · simp only [stepDetect, hm, ite_false] at h ⊢
      obtain rfl : m = n := by simpa using h
      exact ⟨hm, by simp⟩
  | poll m s =>
    by_cases hm : m ∈ ps
    · simp [stepDetect, hm] at h
    · simp only [stepDetect, hm, ite_false] at h ⊢
      obtain rfl : m = n := by simpa using h
      exact ⟨hm, by simp⟩
  | osEvent m obs =>
    by_cases hm : m ∈ ps
    · simp [stepDetect, hm] at h
    · simp only [stepDetect, hm, ite_false] at h ⊢
      cases hw : waitForFileComplete obs with
      | true =>
        rw [hw] at h
        obtain rfl : m = n := by simpa using h
        exact ⟨hm, by simp⟩
      | false => rw [hw] at h; simp at h

/-- Once a filename is in the processed set it is never dispatched again. -/
theorem runDetections_count_zero :
    ∀ (ds : List Detection) (ps : List String) (n : String),
      n ∈ ps → (runDetections ds ps).count n = 0 := by
  intro ds
  induction ds with
  | nil => intro ps n _; rfl
  | cons d ds ih =>
    intro ps n hn
    unfold runDetections
    cases h2 : (stepDetect ps d).2 with
    | none => exact ih _ n (stepDetect_memMono ps d hn)
    | some m =>
      have hm := stepDetect_dispatch ps d h2
      have hne : m ≠ n := fun he => hm.1 (he ▸ hn)
      rw [List.count_cons_of_ne (Ne.symm hne)]
      exact ih _ n (stepDetect_memMono ps d hn)

/-- At-most-once dispatch over any linearised detection sequence. -/
theorem runDetections_count_le_one :
    ∀ (ds : List Detection) (ps : List String) (n : String),
      (runDetections ds ps).count n ≤ 1 := by
  intro ds
  induction ds with
  | nil => intro ps n; simp [runDetections]
  | cons d ds ih =>
    intro ps n
    unfold runDetections
    cases h2 : (stepDetect ps d).2 with
    | none => exact ih _ n
    | some m =>
      have hm := stepDetect_dispatch ps d h2
      by_cases hmn : m = n
      · subst hmn
        rw [List.count_cons_self, runDetections_count_zero ds _ m hm.2]
      · rw [List.count_cons_of_ne fun he => hmn he.symm]
        exact ih _ n

/-- Soundness of the completion wait loop: a true return means some poll saw
the file with non-zero size equal to the previous last_size and parsing
content. -/
theorem waitLoop_sound :
    ∀ (obs : List (Option FileSnap)) (last : Int), waitLoop obs last = true →
      ∃ j s2, obs.get? j = some (some s2) ∧ 0 < s2.size ∧ s2.parses = true ∧
        ((s2.size : Int) = last ∨
          ∃ i s1, i < j ∧ obs.get? i = some (some s1) ∧ s1.size = s2.size) := by
  intro obs
  induction obs with
  | nil => intro last h; simp [waitLoop] at h
  | cons o rest ih =>
    intro last h
    cases o with
    | none =>
      have h' : waitLoop rest last = true := h
      obtain ⟨j, s2, hj, hsz, hp, hd⟩ := ih last h'
      refine ⟨j + 1, s2, by simpa using hj, hsz, hp, ?_⟩
      cases hd with
      | inl hl => exact Or.inl hl
      | inr hr =>
        obtain ⟨i, s1, hij, hi, hs⟩ := hr
        exact Or.inr ⟨i + 1, s1, by omega, by simpa using hi, hs⟩
    | some s =>
      by_cases hc : ((s.size : Int) = last ∧ 0 < s.size)
      · by_cases hp : s.parses = true
        · exact ⟨0, s, rfl, hc.2, hp, Or.inl hc.1⟩
        · have h' : waitLoop rest last = true := by
            simpa [waitLoop, hc, hp] using h
          obtain ⟨j, s2, hj, hsz, hps, hd⟩ := ih last h'
          refine ⟨j + 1, s2, by simpa using hj, hsz, hps, Or.inr ?_⟩
          cases hd with
          | inl hl =>
            refine ⟨0, s, by omega, rfl, ?_⟩
            have h1 := hc.1
            omega
          | inr hr =>
            obtain ⟨i, s1, hij, hi, hs⟩ := hr
            exact ⟨i + 1, s1, by omega, by simpa using hi, hs⟩
      · have h' : waitLoop rest (s.size : Int) = true := by
          simpa [waitLoop, hc] using h
        obtain ⟨j, s2, hj, hsz, hps, hd⟩ := ih _ h'
        refine ⟨j + 1, s2, by simpa using hj, hsz, hps, Or.inr ?_⟩
        cases hd with
        | inl hl =>
          refine ⟨0, s, by omega, rfl, ?_⟩
          exact_mod_cast hl.symm
        | inr hr =>
          obtain ⟨i, s1, hij, hi, hs⟩ := hr
          exact ⟨i + 1, s1, by omega, by simpa using hi, hs⟩

/-- A successful `_wait_for_file_complete` implies completion evidence: two
polls saw the same non-zero size and the later content parsed. -/
theorem waitComplete_stablyParsed (obs : List (Option FileSnap))
    (h : waitForFileComplete obs = true) : StablyParsed obs := by
  obtain ⟨j, s2, hj, hsz, hp, hd⟩ := waitLoop_sound obs (-1) h
  cases hd with
  | inl hl =>
    exfalso
    have : (0 : Int) ≤ (s2.size : Int) := Int.ofNat_nonneg s2.size
    omega
  | inr hr =>
    obtain ⟨i, s1, hij, hi, hs⟩ := hr
    exact ⟨i, j, s1, s2, hij, hi, hj, hs, hsz, hp⟩

/-! ## Claim theorems -/

/-- Claim C1, amended: for every TRANSACTION request whose sub-operation
loop fails, the engine rolls back — the returned database state is exactly
the pre-transaction state, so no partial commit is visible — and returns a
single aggregate ERROR whose message is the transaction-failure wrapper
around the underlying reason.  (The claim's further assertion that the
aggregate error describes which step failed does not hold for engine-level
failures; see the counterexample.) -/
theorem tx_rollback_atomic (uc : UniqueCons) (eng : SqlEngine) (req : SyncRequest)
    (st : DBState) (now : Int) (ops : List TxItem) (msg : String)
    (hop : req.operation = "TRANSACTION")
    (hops : req.data.operations = some ops)
    (hrun : runTxOps uc ops 0 st 0 [] = .error msg) :
    (executeRequest uc eng req st now).db = st ∧
    (executeRequest uc eng req st now).result =
      ExecResult.error ("事务执行失败: " ++ msg) now := by
  have hne : ops ≠ [] := by
    intro h; subst h; simp [runTxOps] at hrun
  have hexec : executeOperation uc eng req st =
      .error ("事务执行失败: " ++ msg) := by
    unfold executeOperation
    rw [hop]
    simp only [String.reduceEq, reduceIte, ite_false, ite_true, if_true, if_false]
    unfold executeTransaction
    rw [hops]
    simp only [hne, ite_false, if_neg]
    rw [hrun]
  unfold executeRequest
  rw [hexec]
  exact ⟨rfl, rfl⟩

/-- Witness for C1: the 3-INSERT scenario with a UNIQUE violation at the
third step.  The sub-operation loop fails, the resulting database equals the
initial one (the users table holds zero rows from any of the 3 INSERTs), and
the response status is ERROR. -/
theorem tx_rollback_atomic_witness :
    runTxOps uc1 ops1 0 st1 0 [] =
      .error "UNIQUE constraint failed: users.email" ∧
    (executeRequest uc1 stubEngine req1 st1 0).db = st1 ∧
    (executeRequest uc1 stubEngine req1 st1 0).result =
      ExecResult.error "事务执行失败: UNIQUE constraint failed: users.email" 0 ∧
    findTable (executeRequest uc1 stubEngine req1 st1 0).db "users" = some ⟨1, []⟩ := by
  have h := tx_rollback_atomic uc1 stubEngine req1 st1 0 ops1
    "UNIQUE constraint failed: users.email" rfl rfl (by rfl)
  exact ⟨rfl, h.1, h.2.trans (by rfl), by rw [h.1]; rfl⟩

/-- Counterexample for C1: in the very scenario the claim names (3 INSERTs,
the 3rd violating a uniqueness constraint) the aggregate error message is
the transaction-failure wrapper around the engine's message only — it
contains no digit and hence does not describe WHICH step (the 3rd) failed,
although the first two sub-operations alone succeed. -/
theorem tx_error_names_no_step :
    (executeRequest uc1 stubEngine req1 st1 0).result =
      ExecResult.error "事务执行失败: UNIQUE constraint failed: users.email" 0 ∧
    isOkE (runTxOps uc1 [insOp "e1", insOp "e2"] 0 st1 0 []) = true ∧
    (("事务执行失败: UNIQUE constraint failed: users.email").toList.all
      fun c => !c.isDigit) = true := by
  exact ⟨rfl, rfl, by decide⟩

/-- Claim C2: `execute_request` never raises across its boundary — for every
request, payload and database state the returned result is structurally
either status=SUCCESS with a data payload and timestamp, or status=ERROR
with a message and timestamp (totality of the embedded function is the
no-throw guarantee; the try/except boundary is the Except case split). -/
theorem executeRequest_structured (uc : UniqueCons) (eng : SqlEngine)
    (req : SyncRequest) (st : DBState) (now : Int) :
    (∃ d, (executeRequest uc eng req st now).result = ExecResult.success d now) ∨
    (∃ m, (executeRequest uc eng req st now).result = ExecResult.error m now) := by
  unfold executeRequest
  cases executeOperation uc eng req st with
  | ok p => exact Or.inl ⟨p.1, rfl⟩
  | error e => exact Or.inr ⟨e, rfl⟩

/-- Claim C3, amended: only the event-driven (watchdog) path runs the
completion check before dispatch — a file is dispatched there exactly when
`_wait_for_file_complete` succeeds, which guarantees two polls saw the same
non-zero size with the later content parsing as JSON — while a file whose
completion is never confirmed is recorded as processed and NOT dispatched,
i.e. permanently skipped rather than left for a later pass.  The startup
scan and polling paths dispatch without any completion check (see the
counterexample). -/
theorem event_path_completion_check (ps : List String) (n : String)
    (obs : List (Option FileSnap)) (hn : n ∉ ps) :
    ((stepDetect ps (Detection.osEvent n obs)).2 = some n ↔
      waitForFileComplete obs = true) ∧
    (waitForFileComplete obs = true → StablyParsed obs) ∧
    (waitForFileComplete obs = false →
      (stepDetect ps (Detection.osEvent n obs)).2 = none ∧
      n ∈ (stepDetect ps (Detection.osEvent n obs)).1) := by
  refine ⟨?_, waitComplete_stablyParsed obs, ?_⟩
  · simp only [stepDetect, hn, ite_false]
    cases hw : waitForFileComplete obs <;> simp [hw]
  · intro hw
    simp [stepDetect, hn, hw]

/-- Witness for C3: a fresh watcher, a file whose polls observe sizes 5, 9, 9
with the last content parsing; the event path dispatches it, and completion
evidence holds. -/
theorem event_path_completion_check_witness :
    (stepDetect [] (Detection.osEvent "f.json" goodObs)).2 = some "f.json" ∧
    StablyParsed goodObs := by
  have h := event_path_completion_check [] "f.json" goodObs (by simp)
  exact ⟨h.1.mpr rfl, h.2.1 rfl⟩

/-- Counterexample for C3: on the polling-fallback path and on the startup
scan, a file whose current content does NOT parse as JSON (a half-written
file) is dispatched immediately — no size-stabilisation or parse check
happens on those paths, contradicting the claim that every path confirms
completion before dispatch. -/
theorem poll_path_dispatches_unparsed :
    runDetections [Detection.poll "half.json" ⟨7, false⟩] [] = ["half.json"] ∧
    runDetections [Detection.scan "part.json" ⟨5, false⟩] [] = ["part.json"] := by
  exact ⟨rfl, rfl⟩

/-- Claim C4, amended: a single FileMonitor dispatches any filename at most
once across its lifetime — over every linearised sequence of startup-scan,
OS-event and polling detections, the callback count per filename is at most
one, because the name is recorded in the processed set (under the lock)
before dispatch.  Exactly-once fails: an event-path file whose completion is
never confirmed is dispatched zero times (see the counterexample). -/
theorem at_most_once_dispatch (ds : List Detection) (n : String) :
    (runDetections ds []).count n ≤ 1 :=
  runDetections_count_le_one ds [] n

/-- Counterexample for C4: a file reported by an OS event whose completion
wait never succeeds, then seen again by a polling pass, is dispatched zero
times — not exactly once — because the event path marked it processed before
the failed completion check. -/
theorem event_unconfirmed_never_dispatched :
    runDetections [Detection.osEvent "f.json" badObs,
                   Detection.poll "f.json" ⟨3, true⟩] [] = [] := by
  rfl

/-- Claim C5, amended: every handled request file whose body is unreadable
or parses as a JSON object — fields missing or not, execution failed or
succeeded, email hook raised or not — produces exactly one response-file
write, named clientId underscore requestId dot json from the best-effort
identifiers, followed by deletion of the request file.  (A body that parses
as a non-object JSON value is deleted with no response written — see the
counterexample.) -/
theorem one_response_per_request (uc : UniqueCons) (eng : SqlEngine)
    (parsed : ReqFileParse) (stem : String) (st : DBState) (now : Int)
    (ecr : Bool) (hobj : parsed ≠ ReqFileParse.nonObject) :
    ∃ body,
      (handleRequest uc eng parsed stem st now ecr).1 =
        [FsAction.writeResponse
            (responseName (bestEffortIds parsed stem).1 (bestEffortIds parsed stem).2)
            body,
         FsAction.deleteRequest] := by
  cases parsed with
  | unreadable => exact ⟨_, rfl⟩
  | nonObject => exact absurd rfl hobj
  | object b =>
    obtain ⟨rid, cid, op, tb, d, ts⟩ := b
    cases rid <;> cases cid <;> cases op <;> cases tb <;> cases d <;> cases ts <;>
      first
        | exact ⟨_, rfl⟩
        | (dsimp only [handleRequest]
           split <;> exact ⟨_, rfl⟩)

/-- Witness for C5: an unreadable body and a well-formed INSERT request each
yield exactly one response write among the handler's actions. -/
theorem one_response_per_request_witness :
    (handleRequest uc1 stubEngine ReqFileParse.unreadable "c9_r5" st1 0 false).1.countP
      isWrite = 1 ∧
    (handleRequest uc1 stubEngine
      (ReqFileParse.object ⟨some "r5", some "c9", some "INSERT", some "users",
        some { values := some [("email", Val.str "z")] }, some 5⟩)
      "c9_r5" st1 0 false).1.countP isWrite = 1 := by
  obtain ⟨b1, h1⟩ := one_response_per_request uc1 stubEngine
    ReqFileParse.unreadable "c9_r5" st1 0 false (by simp)
  obtain ⟨b2, h2⟩ := one_response_per_request uc1 stubEngine
    (ReqFileParse.object ⟨some "r5", some "c9", some "INSERT", some "users",
      some { values := some [("email", Val.str "z")] }, some 5⟩)
    "c9_r5" st1 0 false (by simp)
  rw [h1, h2]
  exact ⟨rfl, rfl⟩

/-- Counterexample for C5: a request file whose body is valid JSON but not
an object (e.g. a list body) is consumed — the request file is deleted —
with NO response file written: the happy path raises TypeError at the first
key access and the error handler itself raises AttributeError at
request_data.get, so only the inner delete-only clause runs, stranding the
waiting client. -/
theorem nonobject_request_no_response :
    (handleRequest uc1 stubEngine ReqFileParse.nonObject "c9_r6" st1 0 false).1 =
      [FsAction.deleteRequest] ∧
    (handleRequest uc1 stubEngine ReqFileParse.nonObject "c9_r6" st1 0 false).1.countP
      isWrite = 0 := by
  exact ⟨rfl, rfl⟩

/-- The retry loop with every attempt failing: invariant form over the
remaining-iterations counter. -/
theorem retryGo_allFail (ra : Nat) (outcomes : Nat → AttemptOutcome) :
    ∀ (r i : Nat) (le : Option String) (s : Nat), i + r = ra → 0 < r →
      (∀ j, j < ra → attemptFailed (outcomes j) = true) →
      retryGo ra outcomes r i le s =
        (⟨false, some (failMsg ra (lastErrOf (outcomes (ra - 1))))⟩, ra, s + (r - 1)) := by
  intro r
  induction r with
  | zero => intro i le s _ h0 _; omega
  | succ r ih =>
    intro i le s hsum _ hfail
    have hi : i < ra := by omega
    have hf := hfail i hi
    cases ho : outcomes i with
    | ok q =>
      have hqs : q.success = false := by
        rw [ho] at hf
        simpa [attemptFailed] using hf
      by_cases hr : r = 0
      · subst hr
        have hieq : i = ra - 1 := by omega
        have hnl : ¬ i < ra - 1 := by omega
        have ho' : outcomes (ra - 1) = AttemptOutcome.ok q := by
          rw [← hieq]; exact ho
        simp [retryGo, ho, hqs, hnl, lastErrOf, ho']
      · have hlt : i < ra - 1 := by omega
        simp only [retryGo, ho, hqs, Bool.false_eq_true, if_false, hlt, ite_true]
        rw [ih (i + 1) q.error (s + 1) (by omega) (by omega) hfail]
        have : s + 1 + (r - 1) = s + (r + 1 - 1) := by omega
        rw [this]
    | raised m =>
      by_cases hr : r = 0
      · subst hr
        have hieq : i = ra - 1 := by omega
        have hnl : ¬ i < ra - 1 := by omega
        have ho' : outcomes (ra - 1) = AttemptOutcome.raised m := by
          rw [← hieq]; exact ho
        simp [retryGo, ho, hnl, lastErrOf, ho']
      · have hlt : i < ra - 1 := by omega
        simp only [retryGo, ho, hlt, ite_true]
        rw [ih (i + 1) (some m) (s + 1) (by omega) (by omega) hfail]
        have : s + 1 + (r - 1) = s + (r + 1 - 1) := by omega
        rw [this]

/-- Claim C6: when every one of the retry_attempts attempts fails (ERROR
result or exception, covering timeouts), `_execute_with_retry` makes exactly
retry_attempts attempts with a retry_delay sleep between consecutive
attempts (retry_attempts - 1 sleeps) and returns a failed QueryResult whose
message states the number of attempts made and the last underlying error. -/
theorem retry_all_fail (ra : Nat) (outcomes : Nat → AttemptOutcome)
    (h0 : 0 < ra) (hfail : ∀ j, j < ra → attemptFailed (outcomes j) = true) :
    executeWithRetry ra outcomes =
      (⟨false, some (failMsg ra (lastErrOf (outcomes (ra - 1))))⟩, ra, ra - 1) := by
  unfold executeWithRetry
  rw [retryGo_allFail ra outcomes ra 0 none 0 (by omega) h0 hfail]
  simp

/-- Witness for C6: three attempts all timing out yield three attempts, two
sleeps, and the aggregate message naming 3 attempts and the timeout error. -/
theorem retry_all_fail_witness :
    executeWithRetry 3 timeoutOutcomes =
      (⟨false, some "重试 3 次后失败: 请求超时"⟩, 3, 2) := by
  have h := retry_all_fail 3 timeoutOutcomes (by omega) (fun j _ => rfl)
  exact h.trans (by rfl)

/-- Claim C7: an UPDATE (with a non-empty SET map) or DELETE whose non-empty
WHERE map matches no row of an existing target table returns
status=SUCCESS with rows_affected = 0, never an ERROR, and leaves the
database unchanged. -/
theorem zero_row_success (uc : UniqueCons) (eng : SqlEngine) (st : DBState)
    (now ts : Int) (t : String) (tbl : Table) (vals conds : List (String × Val))
    (rid cid : String)
    (htbl : findTable st t = some tbl)
    (hv : vals ≠ []) (hc : conds ≠ [])
    (hnom : ∀ p ∈ tbl.rows, matchesWhere conds p.2 = false) :
    ((executeRequest uc eng ⟨rid, cid, "UPDATE", t,
        { values := some vals, whereC := some conds }, ts⟩ st now).result =
      ExecResult.success (OpResult.affected 0) now ∧
     (executeRequest uc eng ⟨rid, cid, "UPDATE", t,
        { values := some vals, whereC := some conds }, ts⟩ st now).db = st) ∧
    ((executeRequest uc eng ⟨rid, cid, "DELETE", t,
        { whereC := some conds }, ts⟩ st now).result =
      ExecResult.success (OpResult.affected 0) now ∧
     (executeRequest uc eng ⟨rid, cid, "DELETE", t,
        { whereC := some conds }, ts⟩ st now).db = st) := by
  have hfil : tbl.rows.filter (fun p => matchesWhere conds p.2) = [] :=
    filterNone _ _ hnom
  have hmap : (tbl.rows.map fun p =>
      if matchesWhere conds p.2 then (p.1, applySets vals p.2) else p) = tbl.rows :=
    mapSelf _ _ (fun a ha => by rw [hnom a ha]; simp)
  have hkeep : tbl.rows.filter (fun p => !(matchesWhere conds p.2)) = tbl.rows :=
    filterAll _ _ (fun a ha => by rw [hnom a ha]; rfl)
  have hset : setTable st t ⟨tbl.nextId, tbl.rows⟩ = st := setTable_self st t tbl htbl
  have hupd : sqliteUpdate uc st t vals conds = .ok (0, st) := by
    have hcond : ¬ (vals = [] ∨ conds = []) := by simp [hv, hc]
    simp only [sqliteUpdate, hcond, ite_false, if_neg, htbl, hfil, hmap,
      List.map_nil, updateConflict_nilMod, List.length_nil, hset]
  have hdel : sqliteDelete st t conds = .ok (0, st) := by
    simp only [sqliteDelete, hc, ite_false, if_neg, htbl, hkeep, Nat.sub_self, hset]
  constructor
  · have hop : executeOperation uc eng ⟨rid, cid, "UPDATE", t,
        { values := some vals, whereC := some conds }, ts⟩ st =
        .ok (.affected 0, st) := by
      unfold executeOperation
      simp only [String.reduceEq, reduceIte]
      unfold executeUpdate
      dsimp only
      rw [hupd]
    unfold executeRequest
    rw [hop]
    exact ⟨rfl, rfl⟩
  · have hop : executeOperation uc eng ⟨rid, cid, "DELETE", t,
        { whereC := some conds }, ts⟩ st = .ok (.affected 0, st) := by
      unfold executeOperation
      simp only [String.reduceEq, reduceIte]
      unfold executeDelete
      dsimp only
      rw [hdel]
    unfold executeRequest
    rw [hop]
    exact ⟨rfl, rfl⟩

/-- Witness for C7: UPDATE users SET x=1 WHERE id=nonexistent and the
corresponding DELETE against a one-row users table both succeed with
rows_affected 0 and leave the state unchanged. -/
theorem zero_row_success_witness :
    (executeRequest uc1 stubEngine ureq7 st7 0).result =
      ExecResult.success (OpResult.affected 0) 0 ∧
    (executeRequest uc1 stubEngine ureq7 st7 0).db = st7 ∧
    (executeRequest uc1 stubEngine dreq7 st7 0).result =
      ExecResult.success (OpResult.affected 0) 0 ∧
    (executeRequest uc1 stubEngine dreq7 st7 0).db = st7 := by
  have h := zero_row_success uc1 stubEngine st7 0 0 "users"
    ⟨2, [(1, [("id", Val.str "a")])]⟩ [("x", Val.int 1)]
    [("id", Val.str "nonexistent")] "r7" "c7" rfl (by simp) (by simp) (by decide)
  exact ⟨h.1.1, h.1.2, h.2.1, h.2.2⟩

/-- Claim C8: a raw SQL request runs the caller's statement with exactly the
given positional parameters (empty when absent), and the result shape is
chosen by the SELECT-prefix test on the trimmed, case-folded statement text:
a row list for SELECT, rows_affected plus lastrowid otherwise. -/
theorem raw_sql_shape (eng : SqlEngine) (d : OpData) (st st2 : DBState)
    (sql : String) (out : SqlExecOut)
    (hsql : d.sql = some sql)
    (hrun : eng sql (d.params.getD []) st = .ok (out, st2)) :
    executeSql eng d st =
      .ok ((if isSelectSql sql then OpResult.rows out.resRows
            else OpResult.sqlRes out.rowcount out.lastrowid), st2) := by
  unfold executeSql
  rw [hsql]
  dsimp only
  rw [hrun]
  cases h : isSelectSql sql <;> simp [h]

/-- Witness for C8: a statement with leading whitespace and lower-case
select is classified as a query and returns rows; a DELETE returns the
rows_affected / lastrowid pair. -/
theorem raw_sql_shape_witness :
    executeSql rowEngine d8a st8 = .ok (OpResult.rows [[("n", Val.int 1)]], st8) ∧
    executeSql rowEngine d8b st8 = .ok (OpResult.sqlRes 2 5, st8) ∧
    isSelectSql "  select * from users " = true ∧
    isSelectSql "DELETE FROM users" = false := by
  refine ⟨?_, ?_, rfl, rfl⟩
  · exact (raw_sql_shape rowEngine d8a st8 st8 _ _ rfl rfl).trans (by rfl)
  · exact (raw_sql_shape rowEngine d8b st8 st8 _ _ rfl rfl).trans (by rfl)

/-- Claim C9: INSERT with a missing values key is rejected by validation;
INSERT with an empty values map builds a statement SQLite rejects with a
syntax error — both yield an ERROR result; and an INSERT with a non-empty
values map the database accepts returns SUCCESS carrying the engine-assigned
inserted_id and rows_affected 1. -/
theorem insert_requires_values (uc : UniqueCons) (eng : SqlEngine) (st : DBState)
    (now ts : Int) (rid cid t : String) (d : ReqData) :
    (d.values = none →
      (executeRequest uc eng ⟨rid, cid, "INSERT", t, d, ts⟩ st now).result =
        ExecResult.error "INSERT操作缺少values字段" now) ∧
    (d.values = some [] →
      (executeRequest uc eng ⟨rid, cid, "INSERT", t, d, ts⟩ st now).result =
        ExecResult.error "near ): syntax error" now) ∧
    (∀ vals id st2, d.values = some vals →
      sqliteInsert uc st t vals = .ok (id, st2) →
      (executeRequest uc eng ⟨rid, cid, "INSERT", t, d, ts⟩ st now).result =
        ExecResult.success (OpResult.insertRes id 1) now ∧
      (executeRequest uc eng ⟨rid, cid, "INSERT", t, d, ts⟩ st now).db = st2) := by
  refine ⟨?_, ?_, ?_⟩
  · intro hnone
    have hop : executeOperation uc eng ⟨rid, cid, "INSERT", t, d, ts⟩ st =
        .error "INSERT操作缺少values字段" := by
      unfold executeOperation
      simp only [String.reduceEq, reduceIte]
      unfold executeInsert
      rw [hnone]
    unfold executeRequest
    rw [hop]
  · intro hnil
    have hop : executeOperation uc eng ⟨rid, cid, "INSERT", t, d, ts⟩ st =
        .error "near ): syntax error" := by
      unfold executeOperation
      simp only [String.reduceEq, reduceIte]
      unfold executeInsert
      rw [hnil]
      simp [sqliteInsert]
    unfold executeRequest
    rw [hop]
  · intro vals id st2 hvals hins
    have hop : executeOperation uc eng ⟨rid, cid, "INSERT", t, d, ts⟩ st =
        .ok (.insertRes id 1, st2) := by
      unfold executeOperation
      simp only [String.reduceEq, reduceIte]
      unfold executeInsert
      rw [hvals]
      dsimp only
      rw [hins]
    unfold executeRequest
    rw [hop]
    exact ⟨rfl, rfl⟩

/-- Witness for C9: against the empty users table, INSERT without values and
INSERT with an empty values map both return ERROR; INSERT of one email row
returns SUCCESS with inserted_id 1 and the row is stored. -/
theorem insert_requires_values_witness :
    (executeRequest uc1 stubEngine req9a st1 1).result =
      ExecResult.error "INSERT操作缺少values字段" 1 ∧
    (executeRequest uc1 stubEngine req9b st1 1).result =
      ExecResult.error "near ): syntax error" 1 ∧
    (executeRequest uc1 stubEngine req9c st1 1).result =
      ExecResult.success (OpResult.insertRes 1 1) 1 ∧
    findTable (executeRequest uc1 stubEngine req9c st1 1).db "users" =
      some ⟨2, [(1, [("email", Val.str "a")])]⟩ := by
  have h3 := (insert_requires_values uc1 stubEngine st1 1 1 "r9" "c9" "users"
      req9c.data).2.2
    [("email", Val.str "a")] 1 ⟨[("users", ⟨2, [(1, [("email", Val.str "a")])]⟩)]⟩
    rfl rfl
  refine ⟨(insert_requires_values uc1 stubEngine st1 1 1 "r9" "c9" "users"
      req9a.data).1 rfl,
    (insert_requires_values uc1 stubEngine st1 1 1 "r9" "c9" "users"
      req9b.data).2.1 rfl, h3.1, ?_⟩
  have h4 : (executeRequest uc1 stubEngine req9c st1 1).db =
      ⟨[("users", ⟨2, [(1, [("email", Val.str "a")])]⟩)]⟩ := h3.2
  rw [h4]
  rfl

end SyncSys
